import Mathlib

/-!
Verification of the result-normalisation and streaming-ingestion logic of the
CrediScope/TruthLens frontend (src/frontend/src/api/client.ts).

The embedding models `transformBackendResult` and `streamAnalysis` over a
structured payload type that follows the input contract of the function
(optional fields; `quick_analysis` a string, an array, or another value;
array items that may be strings, objects, nulls, or other primitives).
JavaScript truthiness-based defaulting (`x || d`, where `0`, `""`, `null`
and `undefined` are falsy) is modelled explicitly.  Places where the
JavaScript code can throw a TypeError (property access on `null` items,
calling `.map` on a truthy non-array `evidence` value) are modelled with
`Except String`.  String lengths count characters (the inputs used here
contain only single-code-unit characters), and `TextDecoder` byte decoding
is abstracted by delivering text chunks.
-/

namespace CrediScope

/-- Whitespace trimming at both ends (JavaScript `String.prototype.trim`),
implemented on the character list so that it reduces in the kernel. -/
def trimS (s : String) : String :=
  String.mk (((s.data.dropWhile Char.isWhitespace).reverse.dropWhile Char.isWhitespace).reverse)

/-- Split a character list on single newlines (JavaScript `split("\n")`):
leftmost, keeps empty segments. -/
def splitOnNl (l : List Char) : List (List Char) :=
  match l with
  | [] => [[]]
  | '\n' :: rest => [] :: splitOnNl rest
  | c :: rest =>
    match splitOnNl rest with
    | [] => [[c]]
    | p :: ps => (c :: p) :: ps

/-- Split a character list on the blank-line delimiter (JavaScript
`split("\n\n")`): leftmost, non-overlapping, keeps empty segments. -/
def splitOnBlank (l : List Char) : List (List Char) :=
  match l with
  | [] => [[]]
  | '\n' :: '\n' :: rest => [] :: splitOnBlank rest
  | c :: rest =>
    match splitOnBlank rest with
    | [] => [[c]]
    | p :: ps => (c :: p) :: ps

/-- JavaScript `x || d` for an optional string field: `""` is falsy. -/
def jsOrStr (x : Option String) (d : String) : String :=
  match x with
  | some s => if s = "" then d else s
  | none => d

/-- JavaScript `x || d` for an optional integer field: `0` is falsy. -/
def jsOrInt (x : Option Int) (d : Int) : Int :=
  match x with
  | some n => if n = 0 then d else n
  | none => d

/-- The five confidence sub-scores (`Result.verdict.breakdown`). -/
structure Breakdown where
  factChecks : Int
  sourceCredibility : Int
  modelConsensus : Int
  technicalFeasibility : Int
  crossMedia : Int
deriving DecidableEq, Repr

/-- Raw `verdict` object of a backend payload.  `none` fields are absent or
falsy at the access site.  The raw payload may itself carry a `breakdown`. -/
structure VerdictRaw where
  label : Option String
  confidence : Option Int
  summary : Option String
  breakdown : Option Breakdown
deriving DecidableEq, Repr

/-- An element of an array-valued `quick_analysis`: a string, an object with
optional `icon`/`text` fields, `null` (property access throws), or some
other primitive (property access yields `undefined`). -/
inductive QAItem where
  | strItem (s : String)
  | objItem (icon : Option String) (text : Option String)
  | nullItem
  | otherPrim
deriving DecidableEq, Repr

/-- The `quick_analysis` field: a string, an array, or a truthy value of
another type (falsy values and absence are both modelled by `none` at the
payload level, since the code guards with `if (backendResult.quick_analysis)`). -/
inductive QAField where
  | strVal (s : String)
  | arr (items : List QAItem)
  | otherTruthy
deriving DecidableEq, Repr

/-- An element of the `evidence` array: an object with optional string
fields, `null` (property access throws), or another primitive. -/
inductive EvItem where
  | objItem (source : Option String) (title : Option String)
      (url : Option String) (snippet : Option String) (note : Option String)
  | nullItem
  | otherPrim
deriving DecidableEq, Repr

/-- The `evidence` field: an array, a string (truthy when nonempty, has a
`.length`, but `.map` throws), or another truthy non-array value. -/
inductive EvField where
  | arr (items : List EvItem)
  | strVal (s : String)
  | otherTruthy
deriving DecidableEq, Repr

/-- An element of the legacy `checklist` array: a string, an object with
optional `point`/`explanation` fields (interpolated with JavaScript
template-literal semantics, `undefined` printing as "undefined"), `null`
(property access throws), or another primitive. -/
inductive ChkItem where
  | strItem (s : String)
  | objItem (point : Option String) (explanation : Option String)
  | nullItem
  | otherPrim
deriving DecidableEq, Repr

/-- Raw `audit` object of a backend payload. -/
structure AuditRaw where
  model_version : Option String
  analysis_time : Option String
  trace_id : Option String
  fact_checks_found : Option Int
  processing_time : Option String
deriving DecidableEq, Repr

/-- A backend payload as consumed by `transformBackendResult`.  `none`
models an absent, `null`, or otherwise falsy/ineffective field:
`education_checklist` and `checklist` are guarded by `Array.isArray`, so a
non-array value there behaves exactly like an absent one; the
`intelligence` field is opaque to the transformation and is modelled by its
pretty-printed serialization. -/
structure BackendPayload where
  id : Option String
  input : Option String
  domain : Option String
  verdict : Option VerdictRaw
  quick_analysis : Option QAField
  education_checklist : Option (List String)
  checklist : Option (List ChkItem)
  evidence : Option EvField
  audit : Option AuditRaw
  intelligence : Option String
deriving DecidableEq, Repr

/-- One normalized quick-analysis finding. -/
structure QAEntry where
  icon : String
  text : String
deriving DecidableEq, Repr

/-- Normalized verdict. -/
structure VerdictOut where
  label : String
  confidence : Int
  breakdown : Option Breakdown
deriving DecidableEq, Repr

/-- Normalized evidence entry. -/
structure EvidenceOut where
  title : String
  url : String
  note : String
deriving DecidableEq, Repr

/-- One section of the deep report. -/
structure ReportSection where
  heading : String
  content : String
deriving DecidableEq, Repr

/-- The deep report. -/
structure DeepReport where
  summary : Option String
  sections : List ReportSection
deriving DecidableEq, Repr

/-- Normalized audit metadata. -/
structure AuditOut where
  model_version : Option String
  analysis_time : Option String
  trace_id : Option String
  fact_checks_found : Option Int
  processing_time : Option String
deriving DecidableEq, Repr

/-- The canonical normalized analysis outcome (`interface Result`). -/
structure Result where
  id : String
  input : String
  domain : String
  language : Option String
  verdict : VerdictOut
  quick_analysis : List QAEntry
  simple_explanation : String
  education_checklist : List String
  evidence : List EvidenceOut
  deep_report : DeepReport
  audit : Option AuditOut
deriving DecidableEq, Repr

/-- The fixed 5-icon palette used for quick-analysis entries. -/
def iconPalette : List String := ["🎭", "🌍", "🧬", "🔍", "⚡"]

/-- JavaScript `["🎭","🌍","🧬","🔍","⚡"][index] || "🔍"`: the palette entry
at `i` when `i < 5`, otherwise the fixed default `"🔍"`. -/
def paletteIcon (i : Nat) : String := (iconPalette.get? i).getD "🔍"

/-- JavaScript `line.replace(bullet-at-start regex, "")`: remove one leading
`-`, `•` or `*` and the whitespace run following it. -/
def stripBullet (line : String) : String :=
  match line.data with
  | [] => line
  | c :: rest =>
    if c = '-' ∨ c = '•' ∨ c = '*' then String.mk (rest.dropWhile Char.isWhitespace)
    else line

/-- Lines of a string-valued `quick_analysis`: split on newline and drop
lines whose trimmed form is empty. -/
def qaLines (s : String) : List String :=
  ((splitOnNl s.data).map String.mk).filter (fun line => trimS line ≠ "")

/-- The quick-analysis entry built from the line at index `i`. -/
def qaFromLine (i : Nat) (line : String) : QAEntry :=
  { icon := paletteIcon i, text := trimS (stripBullet line) }

/-- Index-tracking loop of the string branch of `quick_analysis`. -/
def qaFromStringAux : Nat → List String → List QAEntry
  | _, [] => []
  | i, l :: ls => qaFromLine i l :: qaFromStringAux (i + 1) ls

/-- String branch of `quick_analysis` normalization. -/
def qaFromString (s : String) : List QAEntry := qaFromStringAux 0 (qaLines s)

/-- Array branch of `quick_analysis` normalization, one item:
`icon: item.icon || palette[index] || "🔍"`,
`text: item.text || (typeof item === string ? item : "Analysis point")`.
Accessing a property of `null` throws. -/
def qaItemEntry (i : Nat) (item : QAItem) : Except String QAEntry :=
  match item with
  | .nullItem => .error "TypeError: cannot read properties of null"
  | .strItem s => .ok { icon := paletteIcon i, text := s }
  | .objItem icon text =>
      .ok { icon := jsOrStr icon (paletteIcon i), text := jsOrStr text "Analysis point" }
  | .otherPrim => .ok { icon := paletteIcon i, text := "Analysis point" }

/-- Index-tracking loop of the array branch of `quick_analysis`. -/
def qaItemsAux : Nat → List QAItem → Except String (List QAEntry)
  | _, [] => .ok []
  | i, item :: rest => do
    let e ← qaItemEntry i item
    let es ← qaItemsAux (i + 1) rest
    .ok (e :: es)

/-- JavaScript truthiness of the `quick_analysis` field value. -/
def qaTruthy : QAField → Bool
  | .strVal s => s ≠ ""
  | .arr _ => true
  | .otherTruthy => true

/-- The `quick_analysis` branch dispatch (before the empty-fallback check):
guarded by `if (backendResult.quick_analysis)`, then by `typeof x === "string"`
and `Array.isArray(x)`; any other truthy value leaves the array empty. -/
def quickAnalysisOf (p : BackendPayload) : Except String (List QAEntry) :=
  match p.quick_analysis with
  | none => .ok []
  | some f =>
    if qaTruthy f then
      match f with
      | .strVal s => .ok (qaFromString s)
      | .arr items => qaItemsAux 0 items
      | .otherTruthy => .ok []
    else .ok []

/-- `backendResult.audit?.fact_checks_found || 0`. -/
def factChecksFound (p : BackendPayload) : Int :=
  jsOrInt (Option.bind p.audit AuditRaw.fact_checks_found) 0

/-- `backendResult.evidence?.length || 0`: array and string values have a
length, any other value contributes 0. -/
def evidenceCount (p : BackendPayload) : Int :=
  match p.evidence with
  | none => 0
  | some (.arr items) => Int.ofNat items.length
  | some (.strVal s) => Int.ofNat s.length
  | some .otherTruthy => 0

/-- The three fallback quick-analysis findings used when the normalized
array is empty. -/
def qaFallback (p : BackendPayload) : List QAEntry :=
  [ { icon := "🎭",
      text := "Found " ++ toString (factChecksFound p) ++
        " professional fact-check sources confirming this analysis." },
    { icon := "🌍",
      text := "Cross-referenced with international fact-checking databases and expert verification systems." },
    { icon := "🧬",
      text := jsOrStr (Option.bind p.verdict VerdictRaw.summary)
        "AI analysis completed with high confidence based on available evidence." } ]

/-- One legacy `checklist` item rendered as a string, with JavaScript
template-literal semantics (`undefined` fields print as "undefined");
property access on `null` throws. -/
def chkItemString (item : ChkItem) : Except String String :=
  match item with
  | .strItem s => .ok s
  | .objItem point explanation =>
      .ok ((point.getD "undefined") ++ ": " ++ (explanation.getD "undefined"))
  | .nullItem => .error "TypeError: cannot read properties of null"
  | .otherPrim => .ok "undefined: undefined"

/-- Loop of the legacy `checklist` branch. -/
def chkItemsAux : List ChkItem → Except String (List String)
  | [] => .ok []
  | item :: rest => do
    let s ← chkItemString item
    let ss ← chkItemsAux rest
    .ok (s :: ss)

/-- The three fixed fallback literacy statements. -/
def eduFallback : List String :=
  [ "Source credibility verified through professional fact-checking databases",
    "Cross-referenced with multiple international verification systems",
    "AI consensus analysis completed with high confidence metrics" ]

/-- Normalization of `education_checklist`: an array-valued
`education_checklist` is used as-is (even when empty); else an array-valued
`checklist` is mapped; else the fixed fallback. -/
def educationOf (p : BackendPayload) : Except String (List String) :=
  match p.education_checklist with
  | some l => .ok l
  | none =>
    match p.checklist with
    | some items => chkItemsAux items
    | none => .ok eduFallback

/-- One evidence entry mapped to the output shape; property access on a
`null` item throws. -/
def evItemOut (item : EvItem) : Except String EvidenceOut :=
  match item with
  | .nullItem => .error "TypeError: cannot read properties of null"
  | .objItem source title url snippet note =>
      .ok { title := jsOrStr source (jsOrStr title "Professional Source"),
            url := jsOrStr url "#",
            note := jsOrStr snippet (jsOrStr note "Evidence snippet") }
  | .otherPrim =>
      .ok { title := "Professional Source", url := "#", note := "Evidence snippet" }

/-- Loop of the evidence mapping. -/
def evItemsAux : List EvItem → Except String (List EvidenceOut)
  | [] => .ok []
  | item :: rest => do
    let e ← evItemOut item
    let es ← evItemsAux rest
    .ok (e :: es)

/-- `(backendResult.evidence || []).map(...)`: a falsy/absent field maps to
the empty list; calling `.map` on a truthy non-array value throws. -/
def evidenceOf (p : BackendPayload) : Except String (List EvidenceOut) :=
  match p.evidence with
  | none => .ok []
  | some (.arr items) => evItemsAux items
  | some (.strVal _) => .error "TypeError: map is not a function"
  | some .otherTruthy => .error "TypeError: map is not a function"

/-- The synthetic confidence breakdown (lines 231-237 of client.ts),
computed unconditionally from the signal counts. -/
def synthBreakdown (p : BackendPayload) : Breakdown :=
  { factChecks := if factChecksFound p > 0 then 90 else 75,
    sourceCredibility := if evidenceCount p > 0 then 85 else 70,
    modelConsensus := jsOrInt (Option.bind p.verdict VerdictRaw.confidence) 50,
    technicalFeasibility := 75,
    crossMedia := min 90 (evidenceCount p * 20 + 50) }

/-- Serialization of the audit object for the Audit Trail section;
abstracts `JSON.stringify` over the modelled fields (the content is not
inspected by any claim). -/
def auditSerialized : Option AuditRaw → String
  | none => "\x7b\x7d"
  | some a =>
      "\x7b " ++ jsOrStr a.model_version "" ++ " " ++ jsOrStr a.analysis_time "" ++ " " ++
        jsOrStr a.trace_id "" ++ " " ++ toString (jsOrInt a.fact_checks_found 0) ++ " " ++
        jsOrStr a.processing_time "" ++ " \x7d"

/-- The fixed three-section deep report. -/
def deepReportOf (p : BackendPayload) : DeepReport :=
  { summary := some (jsOrStr (Option.bind p.verdict VerdictRaw.summary)
      "Professional misinformation analysis completed."),
    sections :=
      [ { heading := "Methodology",
          content := "Analysis performed using professional fact-checking APIs, AI reasoning, and multi-source verification." },
        { heading := "Intelligence Report", content := p.intelligence.getD "\x7b\x7d" },
        { heading := "Audit Trail", content := auditSerialized p.audit } ] }

/-- The templated `simple_explanation` sentence. -/
def explainSentence (label : String) (conf : Int) (fcf : Int) : String :=
  "This claim was rated as " ++ label ++ " with " ++ toString conf ++
    "% confidence based on " ++ toString fcf ++
    " professional fact-check sources and AI analysis."

/-- `simple_explanation` of the output: note the defaults here are
`"unknown"` and `0`, not the `"⚠️ Caution"` and `50` stored in the verdict. -/
def simpleExplanationOf (p : BackendPayload) : String :=
  explainSentence (jsOrStr (Option.bind p.verdict VerdictRaw.label) "unknown")
    (jsOrInt (Option.bind p.verdict VerdictRaw.confidence) 0)
    (factChecksFound p)

/-- The output audit object: spread of the raw audit with `model_version`
and `trace_id` overwritten (`trace_id` takes the raw, un-defaulted `id`). -/
def auditOutOf (p : BackendPayload) : AuditOut :=
  { model_version := some "CrediScope v1.0",
    analysis_time := Option.bind p.audit AuditRaw.analysis_time,
    trace_id := p.id,
    fact_checks_found := Option.bind p.audit AuditRaw.fact_checks_found,
    processing_time := Option.bind p.audit AuditRaw.processing_time }

/-- Assembly of the final `Result` literal from the three computed lists. -/
def mkResult (p : BackendPayload) (qa : List QAEntry) (edu : List String)
    (ev : List EvidenceOut) : Result :=
  { id := jsOrStr p.id "live-analysis",
    input := jsOrStr p.input "Analysis input",
    domain := jsOrStr p.domain "General",
    language := some "en",
    verdict :=
      { label := jsOrStr (Option.bind p.verdict VerdictRaw.label) "⚠️ Caution",
        confidence := jsOrInt (Option.bind p.verdict VerdictRaw.confidence) 50,
        breakdown := some (synthBreakdown p) },
    quick_analysis := qa,
    simple_explanation := simpleExplanationOf p,
    education_checklist := edu,
    evidence := ev,
    deep_report := deepReportOf p,
    audit := some (auditOutOf p) }

/-- The full transformation (`transformBackendResult`, lines 161-273 of
client.ts): quick-analysis branches with empty-fallback, education
checklist, evidence mapping, synthetic breakdown, fixed report, templated
explanation.  The stages are sequenced in the evaluation order of the
JavaScript function, so a thrown TypeError aborts at the same point. -/
def transformBackendResult (p : BackendPayload) : Except String Result := do
  let qa0 ← quickAnalysisOf p
  let qa := if qa0.isEmpty then qaFallback p else qa0
  let edu ← educationOf p
  let ev ← evidenceOf p
  .ok (mkResult p qa edu ev)

/-- Callback invocations of a `streamAnalysis` run, in dispatch order. -/
inductive SEvent (α : Type) where
  | message (a : α)
  | error (e : String)
  | complete
deriving DecidableEq, Repr

/-- Kernel-reducible `String.startsWith`. -/
def startsWithS (s pre : String) : Bool := pre.data.isPrefixOf s.data

/-- JavaScript `part.replace(data-marker-at-start regex, "")`: drop a
leading `"data:"` and the whitespace run following it. -/
def stripDataMarker (part : String) : String :=
  if startsWithS part "data:" then
    String.mk ((part.data.drop 5).dropWhile Char.isWhitespace)
  else part

/-- Handling of one complete segment: segments without the `"data:"` marker
are skipped, marked segments are stripped, trimmed and parsed; a parse
failure yields nothing (the catch block ignores it). -/
def handleSegment (parse : String → Option α) (part : String) : Option α :=
  if startsWithS part "data:" then parse (trimS (stripDataMarker part))
  else none

/-- The inner `for (const part of parts)` loop: dispatches parsed payloads
to `onMessage` in order, accumulating the dispatched values. -/
def dispatchParts (parse : String → Option α) : List String → List α → List α
  | [], acc => acc
  | part :: rest, acc =>
    match handleSegment parse part with
    | some v => dispatchParts parse rest (acc ++ [v])
    | none => dispatchParts parse rest acc

/-- One read-loop iteration (lines 57-70 of client.ts): append the chunk to
the buffer, split on the blank-line delimiter, retain the last (possibly
incomplete) segment as the new buffer, and dispatch all complete segments. -/
def processChunk (parse : String → Option α) (buffer chunk : String) :
    String × List α :=
  let parts := (splitOnBlank (buffer ++ chunk).data).map String.mk
  (parts.getLastD "", dispatchParts parse parts.dropLast [])

/-- The whole read loop over a list of delivered chunks, threading the
buffer and concatenating the dispatched messages in arrival order. -/
def runChunks (parse : String → Option α) : List String → String → String × List α
  | [], buffer => (buffer, [])
  | c :: cs, buffer =>
    let step := processChunk parse buffer c
    let rest := runChunks parse cs step.1
    (rest.1, step.2 ++ rest.2)

/-- How the read loop ends: normal end-of-stream, or an exception raised by
a read after the listed chunks were delivered. -/
inductive ReadEnd where
  | eof
  | readFailure (e : String)
deriving DecidableEq, Repr

/-- The initial HTTP response of a streaming call: status flag and code,
the body text used for the error message, whether a readable body is
present, the successfully delivered chunks, and how reading ends. -/
structure FetchResponse where
  ok : Bool
  status : Nat
  errText : String
  hasBody : Bool
  chunks : List String
  readEnd : ReadEnd
deriving DecidableEq, Repr

/-- The error message synthesized for a failing initial response:
JavaScript `(`HTTP status text`).trim()`. -/
def httpErrorMessage (status : Nat) (errText : String) : String :=
  trimS ("HTTP " ++ toString status ++ " " ++ errText)

/-- The streaming ingestor (`streamAnalysis`, lines 32-76 of client.ts) as
a function from the connection outcome to the ordered list of callback
invocations.  `Except.error e` models an exception thrown by `fetch`
itself; a non-ok or body-less response synthesizes the HTTP error; the
read loop dispatches messages and then either completes or routes a read
exception to `onError`.  The function is total: no exception escapes. -/
def streamAnalysis (parse : String → Option α)
    (fetchResult : Except String FetchResponse) : List (SEvent α) :=
  match fetchResult with
  | .error e => [.error e]
  | .ok r =>
    if !r.ok || !r.hasBody then [.error (httpErrorMessage r.status r.errText)]
    else
      let run := runChunks parse r.chunks ""
      match r.readEnd with
      | .eof => run.2.map SEvent.message ++ [.complete]
      | .readFailure e => run.2.map SEvent.message ++ [.error e]

/-- Toy payload parser used to instantiate the parse-dependent theorems on
concrete streams. -/
def parseToy (s : String) : Option Nat :=
  if s = "A" then some 1
  else if s = "B" then some 2
  else if s = "C" then some 3
  else none

/-- The all-absent backend payload. -/
def emptyPayload : BackendPayload :=
  { id := none, input := none, domain := none, verdict := none,
    quick_analysis := none, education_checklist := none, checklist := none,
    evidence := none, audit := none, intelligence := none }

/-- A placeholder result, used only as the default of `okResult`. -/
def defaultResult : Result :=
  { id := "", input := "", domain := "", language := none,
    verdict := { label := "", confidence := 0, breakdown := none },
    quick_analysis := [], simple_explanation := "", education_checklist := [],
    evidence := [], deep_report := { summary := none, sections := [] },
    audit := none }

/-- The result of a successful transformation, extracted computably. -/
def okResult (p : BackendPayload) : Result :=
  (transformBackendResult p).toOption.getD defaultResult

/-- A breakdown distinct from every synthetic one, supplied by the caller
in the C1 counterexample payload. -/
def c1Breakdown : Breakdown :=
  { factChecks := 1, sourceCredibility := 2, modelConsensus := 3,
    technicalFeasibility := 4, crossMedia := 5 }

/-- Payload whose verdict already contains a confidence breakdown. -/
def c1Payload : BackendPayload :=
  { emptyPayload with
      verdict := some { label := some "True", confidence := some 60,
                        summary := none, breakdown := some c1Breakdown } }

/-- Payload carrying an upstream empty `education_checklist` array. -/
def c2Payload : BackendPayload :=
  { emptyPayload with education_checklist := some [] }

/-- Payload whose `quick_analysis` string has six non-empty lines. -/
def c3Payload : BackendPayload :=
  { emptyPayload with quick_analysis := some (QAField.strVal "a\nb\nc\nd\ne\nf") }

/-- Payload whose `quick_analysis` string is whitespace only (zero
non-empty lines). -/
def c3BlankPayload : BackendPayload :=
  { emptyPayload with quick_analysis := some (QAField.strVal " ") }

/-- Payload used in the C3 witness: two lines, the first bullet-marked. -/
def c3wPayload : BackendPayload :=
  { emptyPayload with quick_analysis := some (QAField.strVal "- x\ny") }

/-- Payload used in the C5 witness: seven fact-check sources, no
`quick_analysis`. -/
def c5wPayload : BackendPayload :=
  { emptyPayload with
      audit := some { model_version := none, analysis_time := none,
                      trace_id := none, fact_checks_found := some 7,
                      processing_time := none } }

/-- Payload with a truthy non-array `evidence` value (a number in the
JavaScript source), on which the transformation throws. -/
def c9Payload : BackendPayload :=
  { emptyPayload with evidence := some EvField.otherTruthy }

/-- Payload whose verdict confidence is exactly 0. -/
def c10ZeroPayload : BackendPayload :=
  { emptyPayload with
      verdict := some { label := some "False", confidence := some 0,
                        summary := none, breakdown := none } }

/-- Payload whose verdict is present but has no confidence. -/
def c10NonePayload : BackendPayload :=
  { emptyPayload with
      verdict := some { label := some "True", confidence := none,
                        summary := none, breakdown := none } }

/-- A failing initial streaming response (HTTP 500). -/
def failing500Response : FetchResponse :=
  { ok := false, status := 500, errText := "Internal Server Error",
    hasBody := true, chunks := [], readEnd := ReadEnd.eof }

/-- A successful streaming response carrying one heartbeat frame whose
payload is not valid JSON. -/
def heartbeatResponse : FetchResponse :=
  { ok := true, status := 200, errText := "", hasBody := true,
    chunks := ["data: :heartbeat\n\n"], readEnd := ReadEnd.eof }

/-- A successful streaming response whose read loop raises after one
delivered frame. -/
def readFailResponse : FetchResponse :=
  { ok := true, status := 200, errText := "", hasBody := true,
    chunks := ["data: A\n\n"], readEnd := ReadEnd.readFailure "network reset" }

/-- Modelled from the spec's words (claim C3): an icon that cycles through
the fixed 5-icon palette by line index, i.e. wraps around modulo 5.  Stated
only to compare the spec's cycling description with the code's
`paletteIcon`. -/
def cycleIcon (i : Nat) : String :=
  (iconPalette.get? (i % iconPalette.length)).getD "🔍"

/-- Success predicate of the `quick_analysis` stage: an array value must
contain no `null` items. -/
def qaOK (p : BackendPayload) : Prop :=
  match p.quick_analysis with
  | some (QAField.arr items) => QAItem.nullItem ∉ items
  | _ => True

/-- Success predicate of the education stage: when the legacy `checklist`
branch is used, it must contain no `null` items. -/
def eduOK (p : BackendPayload) : Prop :=
  match p.education_checklist with
  | some _ => True
  | none =>
    match p.checklist with
    | some items => ChkItem.nullItem ∉ items
    | none => True

/-- Success predicate of the evidence stage: the field must be absent/falsy
or an array without `null` items. -/
def evOK (p : BackendPayload) : Prop :=
  match p.evidence with
  | none => True
  | some (EvField.arr items) => EvItem.nullItem ∉ items
  | some (EvField.strVal _) => False
  | some EvField.otherTruthy => False

lemma ebind_ok {β γ : Type} (a : β) (f : β → Except String γ) :
    Except.bind (Except.ok a) f = f a := rfl

/-- The transformation as an explicit bind chain over its three fallible
stages. -/
lemma transform_eq (p : BackendPayload) :
    transformBackendResult p =
      Except.bind (quickAnalysisOf p) (fun qa0 =>
        Except.bind (educationOf p) (fun edu =>
          Except.bind (evidenceOf p) (fun ev =>
            Except.ok (mkResult p (if qa0.isEmpty then qaFallback p else qa0) edu ev)))) := rfl

/-- Destructor for a successful transformation: the three stages succeeded
and the result is the assembled literal. -/
lemma transform_ok_elim {p : BackendPayload} {r : Result}
    (h : transformBackendResult p = Except.ok r) :
    ∃ qa0 edu ev, quickAnalysisOf p = Except.ok qa0 ∧
      educationOf p = Except.ok edu ∧ evidenceOf p = Except.ok ev ∧
      r = mkResult p (if qa0.isEmpty then qaFallback p else qa0) edu ev := by
  rw [transform_eq] at h
  cases hq : quickAnalysisOf p with
  | error e => rw [hq] at h; exact absurd h (by intro hh; exact Except.noConfusion hh)
  | ok qa0 =>
    rw [hq] at h
    cases he : educationOf p with
    | error e => rw [he] at h; exact absurd h (by intro hh; exact Except.noConfusion hh)
    | ok edu =>
      rw [he] at h
      cases hv : evidenceOf p with
      | error e => rw [hv] at h; exact absurd h (by intro hh; exact Except.noConfusion hh)
      | ok ev =>
        rw [hv] at h
        refine ⟨qa0, edu, ev, rfl, rfl, rfl, ?_⟩
        exact (Except.ok.inj h).symm

/-- The emit loop of the ingestor accumulates exactly the parses of the
complete segments, in order. -/
lemma dispatchParts_eq {α : Type} (parse : String → Option α)
    (parts : List String) (acc : List α) :
    dispatchParts parse parts acc = acc ++ parts.filterMap (handleSegment parse) := by
  induction parts generalizing acc with
  | nil => simp [dispatchParts]
  | cons part rest ih =>
    cases h : handleSegment parse part with
    | some v => simp [dispatchParts, h, ih]
    | none => simp [dispatchParts, h, ih]

lemma qaFromStringAux_length (j : Nat) (lines : List String) :
    (qaFromStringAux j lines).length = lines.length := by
  induction lines generalizing j with
  | nil => rfl
  | cons l ls ih => simp [qaFromStringAux, ih]

lemma qaFromStringAux_get? (lines : List String) (j i : Nat) :
    (qaFromStringAux j lines).get? i =
      (lines.get? i).map (fun line => qaFromLine (j + i) line) := by
  induction lines generalizing j i with
  | nil => simp [qaFromStringAux]
  | cons l ls ih =>
    cases i with
    | zero => simp [qaFromStringAux]
    | succ n =>
      have harith : (j + 1) + n = j + (n + 1) := by omega
      simp only [qaFromStringAux, List.get?]
      rw [ih (j + 1) n, harith]

lemma qaItemsAux_cons (i : Nat) (item : QAItem) (rest : List QAItem) :
    qaItemsAux i (item :: rest) =
      Except.bind (qaItemEntry i item) (fun e =>
        Except.bind (qaItemsAux (i + 1) rest) (fun es => Except.ok (e :: es))) := rfl

lemma chkItemsAux_cons (item : ChkItem) (rest : List ChkItem) :
    chkItemsAux (item :: rest) =
      Except.bind (chkItemString item) (fun s =>
        Except.bind (chkItemsAux rest) (fun ss => Except.ok (s :: ss))) := rfl

lemma evItemsAux_cons (item : EvItem) (rest : List EvItem) :
    evItemsAux (item :: rest) =
      Except.bind (evItemOut item) (fun e =>
        Except.bind (evItemsAux rest) (fun es => Except.ok (e :: es))) := rfl

lemma qaItemEntry_ok (i : Nat) (item : QAItem) (hne : item ≠ QAItem.nullItem) :
    ∃ e, qaItemEntry i item = Except.ok e := by
  cases item with
  | nullItem => exact absurd rfl hne
  | strItem s => exact ⟨_, rfl⟩
  | objItem icon text => exact ⟨_, rfl⟩
  | otherPrim => exact ⟨_, rfl⟩

lemma chkItemString_ok (item : ChkItem) (hne : item ≠ ChkItem.nullItem) :
    ∃ s, chkItemString item = Except.ok s := by
  cases item with
  | nullItem => exact absurd rfl hne
  | strItem s => exact ⟨_, rfl⟩
  | objItem point explanation => exact ⟨_, rfl⟩
  | otherPrim => exact ⟨_, rfl⟩

lemma evItemOut_ok (item : EvItem) (hne : item ≠ EvItem.nullItem) :
    ∃ e, evItemOut item = Except.ok e := by
  cases item with
  | nullItem => exact absurd rfl hne
  | objItem source title url snippet note => exact ⟨_, rfl⟩
  | otherPrim => exact ⟨_, rfl⟩

lemma qaItemsAux_ok_iff (items : List QAItem) (i : Nat) :
    (∃ l, qaItemsAux i items = Except.ok l) ↔ QAItem.nullItem ∉ items := by
  induction items generalizing i with
  | nil => exact ⟨fun _ => List.not_mem_nil _, fun _ => ⟨[], rfl⟩⟩
  | cons item rest ih =>
    rw [qaItemsAux_cons]
    constructor
    · rintro ⟨l, hl⟩ hmem
      cases hitem : qaItemEntry i item with
      | error e => rw [hitem] at hl; exact Except.noConfusion hl
      | ok e0 =>
        rw [hitem, ebind_ok] at hl
        cases hrest : qaItemsAux (i + 1) rest with
        | error e2 => rw [hrest] at hl; exact Except.noConfusion hl
        | ok l2 =>
          rcases List.mem_cons.mp hmem with heq | hmemr
          · subst heq; exact Except.noConfusion hitem
          · exact absurd hmemr ((ih (i + 1)).1 ⟨l2, hrest⟩)
    · intro hmem
      have hne : item ≠ QAItem.nullItem := fun hh => hmem (hh ▸ List.mem_cons_self item rest)
      obtain ⟨e0, he0⟩ := qaItemEntry_ok i item hne
      obtain ⟨l2, hl2⟩ := (ih (i + 1)).2 (fun hmm => hmem (List.mem_cons_of_mem item hmm))
      exact ⟨e0 :: l2, by rw [he0, ebind_ok, hl2, ebind_ok]⟩

lemma chkItemsAux_ok_iff (items : List ChkItem) :
    (∃ l, chkItemsAux items = Except.ok l) ↔ ChkItem.nullItem ∉ items := by
  induction items with
  | nil => exact ⟨fun _ => List.not_mem_nil _, fun _ => ⟨[], rfl⟩⟩
  | cons item rest ih =>
    rw [chkItemsAux_cons]
    constructor
    · rintro ⟨l, hl⟩ hmem
      cases hitem : chkItemString item with
      | error e => rw [hitem] at hl; exact Except.noConfusion hl
      | ok s0 =>
        rw [hitem, ebind_ok] at hl
        cases hrest : chkItemsAux rest with
        | error e2 => rw [hrest] at hl; exact Except.noConfusion hl
        | ok l2 =>
          rcases List.mem_cons.mp hmem with heq | hmemr
          · subst heq; exact Except.noConfusion hitem
          · exact absurd hmemr (ih.1 ⟨l2, hrest⟩)
    · intro hmem
      have hne : item ≠ ChkItem.nullItem := fun hh => hmem (hh ▸ List.mem_cons_self item rest)
      obtain ⟨s0, hs0⟩ := chkItemString_ok item hne
      obtain ⟨l2, hl2⟩ := ih.2 (fun hmm => hmem (List.mem_cons_of_mem item hmm))
      exact ⟨s0 :: l2, by rw [hs0, ebind_ok, hl2, ebind_ok]⟩

lemma evItemsAux_ok_iff (items : List EvItem) :
    (∃ l, evItemsAux items = Except.ok l) ↔ EvItem.nullItem ∉ items := by
  induction items with
  | nil => exact ⟨fun _ => List.not_mem_nil _, fun _ => ⟨[], rfl⟩⟩
  | cons item rest ih =>
    rw [evItemsAux_cons]
    constructor
    · rintro ⟨l, hl⟩ hmem
      cases hitem : evItemOut item with
      | error e => rw [hitem] at hl; exact Except.noConfusion hl
      | ok e0 =>
        rw [hitem, ebind_ok] at hl
        cases hrest : evItemsAux rest with
        | error e2 => rw [hrest] at hl; exact Except.noConfusion hl
        | ok l2 =>
          rcases List.mem_cons.mp hmem with heq | hmemr
          · subst heq; exact Except.noConfusion hitem
          · exact absurd hmemr (ih.1 ⟨l2, hrest⟩)
    · intro hmem
      have hne : item ≠ EvItem.nullItem := fun hh => hmem (hh ▸ List.mem_cons_self item rest)
      obtain ⟨e0, he0⟩ := evItemOut_ok item hne
      obtain ⟨l2, hl2⟩ := ih.2 (fun hmm => hmem (List.mem_cons_of_mem item hmm))
      exact ⟨e0 :: l2, by rw [he0, ebind_ok, hl2, ebind_ok]⟩

lemma quickAnalysisOf_ok_iff (p : BackendPayload) :
    (∃ l, quickAnalysisOf p = Except.ok l) ↔ qaOK p := by
  unfold quickAnalysisOf qaOK
  cases hq : p.quick_analysis with
  | none => exact ⟨fun _ => trivial, fun _ => ⟨[], rfl⟩⟩
  | some f =>
    cases f with
    | strVal s =>
      dsimp only
      constructor
      · intro _; trivial
      · intro _
        by_cases hs : qaTruthy (QAField.strVal s) = true
        · exact ⟨qaFromString s, by rw [if_pos hs]⟩
        · exact ⟨[], by rw [if_neg hs]⟩
    | arr items =>
      dsimp only
      rw [if_pos (show qaTruthy (QAField.arr items) = true from rfl)]
      exact qaItemsAux_ok_iff items 0
    | otherTruthy =>
      dsimp only
      rw [if_pos (show qaTruthy QAField.otherTruthy = true from rfl)]
      exact ⟨fun _ => trivial, fun _ => ⟨[], rfl⟩⟩

lemma educationOf_ok_iff (p : BackendPayload) :
    (∃ l, educationOf p = Except.ok l) ↔ eduOK p := by
  unfold educationOf eduOK
  cases p.education_checklist with
  | some l => exact ⟨fun _ => trivial, fun _ => ⟨l, rfl⟩⟩
  | none =>
    cases p.checklist with
    | some items => exact chkItemsAux_ok_iff items
    | none => exact ⟨fun _ => trivial, fun _ => ⟨eduFallback, rfl⟩⟩

lemma evidenceOf_ok_iff (p : BackendPayload) :
    (∃ l, evidenceOf p = Except.ok l) ↔ evOK p := by
  unfold evidenceOf evOK
  cases p.evidence with
  | none => exact ⟨fun _ => trivial, fun _ => ⟨[], rfl⟩⟩
  | some f =>
    cases f with
    | arr items => exact evItemsAux_ok_iff items
    | strVal s =>
      exact ⟨fun hex => absurd hex.choose_spec (fun hh => Except.noConfusion hh), False.elim⟩
    | otherTruthy =>
      exact ⟨fun hex => absurd hex.choose_spec (fun hh => Except.noConfusion hh), False.elim⟩

/-- C1 counterexample: a payload whose verdict already carries the
breakdown `⟨1,2,3,4,5⟩` is normalized to the synthetic breakdown
`⟨75,70,60,75,50⟩`, not to the provided one — refuting the claim that a
caller-provided breakdown is left unchanged. -/
theorem c1_counterexample :
    (transformBackendResult c1Payload).map (fun r => r.verdict.breakdown) =
      Except.ok (some { factChecks := 75, sourceCredibility := 70,
                        modelConsensus := 60, technicalFeasibility := 75,
                        crossMedia := 50 }) ∧
    (transformBackendResult c1Payload).map (fun r => r.verdict.breakdown) ≠
      Except.ok (some c1Breakdown) := by
  constructor
  · rfl
  · intro h
    rw [show (transformBackendResult c1Payload).map (fun r => r.verdict.breakdown) =
          Except.ok (some { factChecks := 75, sourceCredibility := 70,
                            modelConsensus := 60, technicalFeasibility := 75,
                            crossMedia := 50 }) from rfl] at h
    have h2 := Except.ok.inj h
    have h3 := Option.some.inj h2
    exact absurd (congrArg Breakdown.factChecks h3) (by decide)

/-- C1 (amended): the Normalizer always computes the synthetic confidence
breakdown and stores it in the output verdict, replacing any breakdown the
caller already provided. -/
theorem c1_theorem (p : BackendPayload) (r : Result)
    (h : transformBackendResult p = Except.ok r) :
    r.verdict.breakdown = some (synthBreakdown p) := by
  obtain ⟨qa0, edu, ev, _, _, _, hr⟩ := transform_ok_elim h
  subst hr
  rfl

/-- C1 witness: the amended theorem applied to the C1 payload. -/
theorem c1_witness :
    (okResult c1Payload).verdict.breakdown = some (synthBreakdown c1Payload) :=
  c1_theorem c1Payload (okResult c1Payload) rfl

/-- C2 counterexample: an upstream empty `education_checklist` array passes
through the Normalizer unchanged, so the output checklist is empty —
refuting the claim that `education_checklist` is never empty. -/
theorem c2_counterexample :
    (transformBackendResult c2Payload).map Result.education_checklist =
      Except.ok ([] : List String) := rfl

/-- C2 (amended): `quick_analysis` is never empty after normalization; the
`education_checklist` fallback fires only when neither upstream field is an
array, so the output checklist is non-empty whenever both are absent (an
upstream empty array passes through empty). -/
theorem c2_theorem (p : BackendPayload) (r : Result)
    (h : transformBackendResult p = Except.ok r) :
    r.quick_analysis ≠ [] ∧
    (p.education_checklist = none → p.checklist = none →
      r.education_checklist ≠ []) := by
  obtain ⟨qa0, edu, ev, _, he, _, hr⟩ := transform_ok_elim h
  subst hr
  constructor
  · show (if qa0.isEmpty then qaFallback p else qa0) ≠ []
    cases qa0 with
    | nil => simp [qaFallback]
    | cons a l => simp
  · intro h1 h2
    show edu ≠ []
    rw [educationOf, h1, h2] at he
    have : eduFallback = edu := Except.ok.inj he
    rw [← this]
    simp [eduFallback]

/-- C2 witness: the amended theorem applied to the all-absent payload. -/
theorem c2_witness :
    (okResult emptyPayload).quick_analysis ≠ [] ∧
    (okResult emptyPayload).education_checklist ≠ [] :=
  ⟨(c2_theorem emptyPayload (okResult emptyPayload) rfl).1,
   (c2_theorem emptyPayload (okResult emptyPayload) rfl).2 rfl rfl⟩

/-- C3 counterexample: a six-line string `quick_analysis` yields icon `🔍`
at index 5, whereas cycling through the palette would give `🎭`; and a
whitespace-only string (zero non-empty lines) yields the 3 fallback
findings rather than 0 entries — refuting the claim as stated. -/
theorem c3_counterexample :
    (transformBackendResult c3Payload).map (fun r => r.quick_analysis.map QAEntry.icon) =
      Except.ok ["🎭", "🌍", "🧬", "🔍", "⚡", "🔍"] ∧
    cycleIcon 5 = "🎭" ∧
    ("🔍" : String) ≠ "🎭" ∧
    (transformBackendResult c3BlankPayload).map (fun r => r.quick_analysis.length) =
      Except.ok 3 := by
  exact ⟨rfl, rfl, by decide, rfl⟩

/-- C3 (amended): for a string `quick_analysis` with N ≥ 1 non-empty lines
the Normalizer produces exactly N entries, each stripped of one leading
bullet marker and trimmed; the icon is the palette entry at the line index
for indices 0-4 and the fixed default `🔍` beyond — there is no cyclic
wrap-around (a whitespace-only string instead receives the 3 fallback
findings). -/
theorem c3_theorem (p : BackendPayload) (s : String) (r : Result)
    (hq : p.quick_analysis = some (QAField.strVal s))
    (hnz : qaLines s ≠ [])
    (h : transformBackendResult p = Except.ok r) :
    r.quick_analysis.length = (qaLines s).length ∧
    ∀ i : Nat, r.quick_analysis.get? i =
      ((qaLines s).get? i).map
        (fun line => { icon := paletteIcon i, text := trimS (stripBullet line) }) := by
  have hs : s ≠ "" := by
    intro hh
    rw [hh] at hnz
    exact hnz rfl
  obtain ⟨qa0, edu, ev, hq', _, _, hr⟩ := transform_ok_elim h
  subst hr
  have hqa : qa0 = qaFromString s := by
    rw [quickAnalysisOf, hq] at hq'
    dsimp only at hq'
    rw [if_pos (show qaTruthy (QAField.strVal s) = true by simp [qaTruthy, hs])] at hq'
    exact (Except.ok.inj hq').symm
  subst hqa
  have hlen : (qaFromString s).length = (qaLines s).length :=
    qaFromStringAux_length 0 (qaLines s)
  have hne : (qaFromString s).isEmpty = false := by
    cases hl : qaFromString s with
    | nil =>
      rw [hl] at hlen
      exact absurd (List.length_eq_zero.mp hlen.symm) hnz
    | cons a l => rfl
  constructor
  · show (if (qaFromString s).isEmpty then qaFallback p else qaFromString s).length =
      (qaLines s).length
    rw [hne]
    exact hlen
  · intro i
    show (if (qaFromString s).isEmpty then qaFallback p else qaFromString s).get? i = _
    rw [hne]
    simp only [Bool.false_eq_true, if_false]
    have := qaFromStringAux_get? (qaLines s) 0 i
    rw [qaFromString, this]
    simp [qaFromLine]

/-- C3 witness: the amended theorem applied to the two-line payload
`"- x\ny"`, instantiated at indices 0 and 1. -/
theorem c3_witness :
    (okResult c3wPayload).quick_analysis.length = (qaLines "- x\ny").length ∧
    (okResult c3wPayload).quick_analysis.get? 0 =
      ((qaLines "- x\ny").get? 0).map
        (fun line => { icon := paletteIcon 0, text := trimS (stripBullet line) }) ∧
    (okResult c3wPayload).quick_analysis.get? 1 =
      ((qaLines "- x\ny").get? 1).map
        (fun line => { icon := paletteIcon 1, text := trimS (stripBullet line) }) :=
  ⟨(c3_theorem c3wPayload "- x\ny" (okResult c3wPayload) rfl (by decide) rfl).1,
   (c3_theorem c3wPayload "- x\ny" (okResult c3wPayload) rfl (by decide) rfl).2 0,
   (c3_theorem c3wPayload "- x\ny" (okResult c3wPayload) rfl (by decide) rfl).2 1⟩

/-- C4 (confirmed): the synthetic breakdown satisfies the documented
formulas — `factChecks` 90/75 on fact-check presence, `sourceCredibility`
85/70 on evidence presence, `technicalFeasibility` 75, `crossMedia`
clamped by `min 90` (hence always ≤ 90), and with zero counts the
breakdown is exactly `⟨75, 70, raw-or-50, 75, 50⟩`. -/
theorem c4_theorem (p : BackendPayload) (r : Result)
    (h : transformBackendResult p = Except.ok r) :
    ∃ bd : Breakdown, r.verdict.breakdown = some bd ∧
      bd.factChecks = (if factChecksFound p > 0 then 90 else 75) ∧
      bd.sourceCredibility = (if evidenceCount p > 0 then 85 else 70) ∧
      bd.modelConsensus = jsOrInt (Option.bind p.verdict VerdictRaw.confidence) 50 ∧
      bd.technicalFeasibility = 75 ∧
      bd.crossMedia = min 90 (evidenceCount p * 20 + 50) ∧
      bd.crossMedia ≤ 90 ∧
      (factChecksFound p = 0 → evidenceCount p = 0 →
        bd = { factChecks := 75, sourceCredibility := 70,
               modelConsensus := jsOrInt (Option.bind p.verdict VerdictRaw.confidence) 50,
               technicalFeasibility := 75, crossMedia := 50 }) := by
  obtain ⟨qa0, edu, ev, _, _, _, hr⟩ := transform_ok_elim h
  subst hr
  refine ⟨synthBreakdown p, rfl, rfl, rfl, rfl, rfl, rfl, min_le_left _ _, ?_⟩
  intro h1 h2
  simp [synthBreakdown, h1, h2]

/-- C4 witness: the theorem applied to the all-absent payload (zero
evidence, zero fact-checks). -/
theorem c4_witness :
    ∃ bd : Breakdown, (okResult emptyPayload).verdict.breakdown = some bd ∧
      bd.factChecks = (if factChecksFound emptyPayload > 0 then 90 else 75) ∧
      bd.sourceCredibility = (if evidenceCount emptyPayload > 0 then 85 else 70) ∧
      bd.modelConsensus =
        jsOrInt (Option.bind emptyPayload.verdict VerdictRaw.confidence) 50 ∧
      bd.technicalFeasibility = 75 ∧
      bd.crossMedia = min 90 (evidenceCount emptyPayload * 20 + 50) ∧
      bd.crossMedia ≤ 90 ∧
      (factChecksFound emptyPayload = 0 → evidenceCount emptyPayload = 0 →
        bd = { factChecks := 75, sourceCredibility := 70,
               modelConsensus :=
                 jsOrInt (Option.bind emptyPayload.verdict VerdictRaw.confidence) 50,
               technicalFeasibility := 75, crossMedia := 50 }) :=
  c4_theorem emptyPayload (okResult emptyPayload) rfl

/-- C5 (confirmed): a payload with no `quick_analysis` receives exactly the
3 fallback findings, and the first one embeds the fact-check count. -/
theorem c5_theorem (p : BackendPayload) (r : Result)
    (hq : p.quick_analysis = none)
    (h : transformBackendResult p = Except.ok r) :
    r.quick_analysis.length = 3 ∧
    r.quick_analysis.get? 0 = some
      { icon := "🎭",
        text := "Found " ++ toString (factChecksFound p) ++
          " professional fact-check sources confirming this analysis." } := by
  obtain ⟨qa0, edu, ev, hq', _, _, hr⟩ := transform_ok_elim h
  subst hr
  have hqa : qa0 = [] := by
    rw [quickAnalysisOf, hq] at hq'
    exact (Except.ok.inj hq').symm
  subst hqa
  exact ⟨rfl, rfl⟩

/-- C5 witness: the theorem applied to a payload with 7 fact-check sources
and no `quick_analysis`. -/
theorem c5_witness :
    (okResult c5wPayload).quick_analysis.length = 3 ∧
    (okResult c5wPayload).quick_analysis.get? 0 = some
      { icon := "🎭",
        text := "Found " ++ toString (factChecksFound c5wPayload) ++
          " professional fact-check sources confirming this analysis." } :=
  c5_theorem c5wPayload (okResult c5wPayload) rfl rfl

/-- C6 (confirmed): each read chunk is appended to the buffer and the
buffer is split on the blank-line delimiter; the final (possibly
incomplete) segment becomes the new buffer while every other segment is
handled in order — exactly the `data:`-marked segments that parse are
dispatched, in segment order.  The concrete runs show a trailing partial
frame being retained across a chunk boundary (and later dispatched once
completed) and messages arriving strictly in order. -/
theorem c6_theorem :
    (∀ (α : Type) (parse : String → Option α) (buffer chunk : String),
        processChunk parse buffer chunk =
          (((splitOnBlank (buffer ++ chunk).data).map String.mk).getLastD "",
           (((splitOnBlank (buffer ++ chunk).data).map String.mk).dropLast).filterMap
             (handleSegment parse))) ∧
    runChunks parseToy ["data: A\n\n", "data: B\n\nex"] "" = ("ex", [1, 2]) ∧
    runChunks parseToy ["data: A\n\n", "data: B\n\nda", "ta: C\n\n"] "" =
      ("", [1, 2, 3]) := by
  refine ⟨?_, rfl, rfl⟩
  intro α parse buffer chunk
  show (((splitOnBlank (buffer ++ chunk).data).map String.mk).getLastD "",
      dispatchParts parse ((splitOnBlank (buffer ++ chunk).data).map String.mk).dropLast []) = _
  rw [dispatchParts_eq]
  simp

/-- C7 (confirmed): a non-ok or body-less initial response produces the
trace `[error (HTTP status text)]` — `onError` exactly once with a message
naming the status and body text, and no `onComplete`; an exception thrown
by `fetch` itself is routed to `onError` the same way; and an exception
raised inside the read loop ends the trace with that error after the
already-dispatched messages, again with no `onComplete`.  The model is a
total function, so no exception propagates to the caller. -/
theorem c7_theorem :
    (∀ (α : Type) (parse : String → Option α) (r : FetchResponse),
        (r.ok = false ∨ r.hasBody = false) →
          streamAnalysis parse (Except.ok r) =
            [SEvent.error (httpErrorMessage r.status r.errText)]) ∧
    (∀ (α : Type) (parse : String → Option α) (e : String),
        streamAnalysis parse (Except.error e) = [SEvent.error e]) ∧
    (∀ (α : Type) (parse : String → Option α) (r : FetchResponse) (e : String),
        r.ok = true → r.hasBody = true → r.readEnd = ReadEnd.readFailure e →
          streamAnalysis parse (Except.ok r) =
            ((runChunks parse r.chunks "").2).map SEvent.message ++ [SEvent.error e]) := by
  refine ⟨?_, ?_, ?_⟩
  · intro α parse r hr
    rcases hr with hcase | hcase <;> simp [streamAnalysis, hcase]
  · intro α parse e
    rfl
  · intro α parse r e h1 h2 h3
    simp [streamAnalysis, h1, h2, h3]

/-- C7 witness: the theorem applied to an HTTP-500 response and to a
mid-stream read failure. -/
theorem c7_witness :
    streamAnalysis parseToy (Except.ok failing500Response) =
      [SEvent.error (httpErrorMessage failing500Response.status failing500Response.errText)] ∧
    streamAnalysis parseToy (Except.ok readFailResponse) =
      ((runChunks parseToy readFailResponse.chunks "").2).map SEvent.message ++
        [SEvent.error "network reset"] :=
  ⟨c7_theorem.1 Nat parseToy failing500Response (Or.inl rfl),
   c7_theorem.2.2 Nat parseToy readFailResponse "network reset" rfl rfl rfl⟩

/-- C8 (confirmed): a complete segment whose stripped payload fails to
parse dispatches nothing; a successfully-established stream that ends
normally never produces an error event, whatever the frames contain; and
the concrete heartbeat stream `"data: :heartbeat\n\n"` yields only the
completion event — neither `onMessage` nor `onError`. -/
theorem c8_theorem :
    (∀ (α : Type) (parse : String → Option α) (part : String),
        parse (trimS (stripDataMarker part)) = none →
          handleSegment parse part = none) ∧
    (∀ (α : Type) (parse : String → Option α) (r : FetchResponse),
        r.ok = true → r.hasBody = true → r.readEnd = ReadEnd.eof →
          ∀ e, SEvent.error e ∉ streamAnalysis parse (Except.ok r)) ∧
    streamAnalysis parseToy (Except.ok heartbeatResponse) = [SEvent.complete] := by
  refine ⟨?_, ?_, rfl⟩
  · intro α parse part hp
    unfold handleSegment
    split
    · exact hp
    · rfl
  · intro α parse r h1 h2 h3 e hmem
    simp only [streamAnalysis, h1, h2, h3, Bool.not_true, Bool.or_self,
      Bool.false_eq_true, if_false, ite_false] at hmem
    rcases List.mem_append.mp hmem with hmm | hmm
    · obtain ⟨a, _, ha⟩ := List.mem_map.mp hmm
      exact SEvent.noConfusion ha
    · rcases List.mem_singleton.mp hmm with h
      exact SEvent.noConfusion h

/-- C8 witness: the theorem applied to a concrete unparsable segment and to
the heartbeat stream. -/
theorem c8_witness :
    handleSegment parseToy "data: zzz" = none ∧
    SEvent.error "boom" ∉ streamAnalysis parseToy (Except.ok heartbeatResponse) :=
  ⟨c8_theorem.1 Nat parseToy "data: zzz" rfl,
   c8_theorem.2.1 Nat parseToy heartbeatResponse rfl rfl rfl "boom"⟩

/-- C9 counterexample: a payload whose `evidence` field is a truthy
non-array value (a number in the JavaScript source) makes the
transformation throw a TypeError at `.map` — refuting the claim that the
Normalizer never throws on malformed input. -/
theorem c9_counterexample :
    transformBackendResult c9Payload =
      Except.error "TypeError: map is not a function" := rfl

/-- C9 (amended): the Normalizer terminates and returns a Result exactly
when the stages that iterate arrays cannot hit a TypeError: the
`quick_analysis` array (if any) has no null items, the legacy `checklist`
(when it is used) has no null items, and `evidence` is absent/falsy or an
array with no null items; every other missing or malformed field is
defaulted rather than rejected. -/
theorem c9_theorem (p : BackendPayload) :
    (∃ r, transformBackendResult p = Except.ok r) ↔ (qaOK p ∧ eduOK p ∧ evOK p) := by
  constructor
  · rintro ⟨r, hr⟩
    rw [transform_eq] at hr
    cases hq : quickAnalysisOf p with
    | error e => rw [hq] at hr; exact absurd hr (fun hh => Except.noConfusion hh)
    | ok qa0 =>
      rw [hq, ebind_ok] at hr
      cases he : educationOf p with
      | error e => rw [he] at hr; exact absurd hr (fun hh => Except.noConfusion hh)
      | ok edu =>
        rw [he, ebind_ok] at hr
        cases hv : evidenceOf p with
        | error e => rw [hv] at hr; exact absurd hr (fun hh => Except.noConfusion hh)
        | ok ev =>
          exact ⟨(quickAnalysisOf_ok_iff p).1 ⟨qa0, hq⟩,
                 (educationOf_ok_iff p).1 ⟨edu, he⟩,
                 (evidenceOf_ok_iff p).1 ⟨ev, hv⟩⟩
  · rintro ⟨hqa, hedu, hev⟩
    obtain ⟨qa0, hq⟩ := (quickAnalysisOf_ok_iff p).2 hqa
    obtain ⟨edu, he⟩ := (educationOf_ok_iff p).2 hedu
    obtain ⟨ev, hv⟩ := (evidenceOf_ok_iff p).2 hev
    refine ⟨mkResult p (if qa0.isEmpty then qaFallback p else qa0) edu ev, ?_⟩
    rw [transform_eq, hq, ebind_ok, he, ebind_ok, hv, ebind_ok]

/-- C9 witness: the amended theorem applied to the all-absent payload,
whose stages all succeed. -/
theorem c9_witness :
    (∃ r, transformBackendResult emptyPayload = Except.ok r) ↔
      (qaOK emptyPayload ∧ eduOK emptyPayload ∧ evOK emptyPayload) :=
  c9_theorem emptyPayload

/-- C10 (confirmed): an upstream `verdict.confidence` of exactly 0 is
falsy, so both the stored confidence and the breakdown's `modelConsensus`
become the default 50 — a raw 0 is never preserved; and for a verdict with
no confidence at all the `simple_explanation` sentence embeds the display
default 0 (rendered as `0%`), while the stored `verdict.confidence` is 50. -/
theorem c10_theorem :
    (∀ (p : BackendPayload) (v : VerdictRaw) (r : Result),
        p.verdict = some v → v.confidence = some 0 →
        transformBackendResult p = Except.ok r →
        r.verdict.confidence = 50 ∧
        (synthBreakdown p).modelConsensus = 50 ∧
        r.verdict.breakdown = some (synthBreakdown p)) ∧
    (∀ (p : BackendPayload) (v : VerdictRaw) (r : Result),
        p.verdict = some v → v.confidence = none →
        transformBackendResult p = Except.ok r →
        r.verdict.confidence = 50 ∧
        r.simple_explanation =
          explainSentence (jsOrStr v.label "unknown") 0 (factChecksFound p)) := by
  constructor
  · intro p v r hv hc h
    obtain ⟨qa0, edu, ev, _, _, _, hr⟩ := transform_ok_elim h
    subst hr
    refine ⟨?_, ?_, rfl⟩
    · show jsOrInt (Option.bind p.verdict VerdictRaw.confidence) 50 = 50
      rw [hv]
      simp [Option.bind, hc, jsOrInt]
    · show jsOrInt (Option.bind p.verdict VerdictRaw.confidence) 50 = 50
      rw [hv]
      simp [Option.bind, hc, jsOrInt]
  · intro p v r hv hc h
    obtain ⟨qa0, edu, ev, _, _, _, hr⟩ := transform_ok_elim h
    subst hr
    constructor
    · show jsOrInt (Option.bind p.verdict VerdictRaw.confidence) 50 = 50
      rw [hv]
      simp [Option.bind, hc, jsOrInt]
    · show simpleExplanationOf p = _
      unfold simpleExplanationOf
      rw [hv]
      simp [Option.bind, hc, jsOrInt]

/-- C10 witness: the theorem applied to a zero-confidence payload and to a
no-confidence payload; the final conjunct spells out the rendered sentence
with its literal `0%`. -/
theorem c10_witness :
    ((okResult c10ZeroPayload).verdict.confidence = 50 ∧
     (synthBreakdown c10ZeroPayload).modelConsensus = 50 ∧
     (okResult c10ZeroPayload).verdict.breakdown = some (synthBreakdown c10ZeroPayload)) ∧
    ((okResult c10NonePayload).verdict.confidence = 50 ∧
     (okResult c10NonePayload).simple_explanation =
       explainSentence (jsOrStr (some "True") "unknown") 0 (factChecksFound c10NonePayload)) ∧
    (okResult c10NonePayload).simple_explanation =
      "This claim was rated as True with 0% confidence based on 0 professional fact-check sources and AI analysis." :=
  ⟨c10_theorem.1 c10ZeroPayload
     { label := some "False", confidence := some 0, summary := none, breakdown := none }
     (okResult c10ZeroPayload) rfl rfl rfl,
   c10_theorem.2 c10NonePayload
     { label := some "True", confidence := none, summary := none, breakdown := none }
     (okResult c10NonePayload) rfl rfl rfl,
   rfl⟩

end CrediScope
